import Mathlib

/-!
Shallow embedding of the Lights-On prototype puzzle engine.

The repository contains three variants of the same Lights Out engine:
* `Part000` — the 5×5 editor variant (src/unnamed/part_000): uniform neighbor
  offsets with a bounds filter, check vector counting lit cells as 1, and a
  reducer with an extra `FLIP_SINGLE` action.
* `Part001` — the plain 5×5 variant (src/unnamed/part_001): same flip logic,
  check vector counting unlit cells as 1, no `FLIP_SINGLE`.
* `AppJs` — the 4×4 variant (src/src/App.js): pre-computed edge-aware
  neighbor offsets, no solvability oracle.

A JS puzzle-state object is read only through the truthiness of `state[id]`
(`Boolean(s[id])`, `state[id] ? _ : _`, `!!state[id]`), and the spec declares
the absence of a key equivalent to "unlit"; states are therefore embedded as
total functions `String → Bool`, with the empty object `{}` embedded as
`fun _ => false`.  JS numbers used as coordinates are embedded as `Int`
(offsets go to -1); linear cell indices are `Nat`.
-/

namespace Part000

def rowCount : Nat := 5
def colCount : Nat := 5
def numCells : Nat := rowCount * colCount

/-- `getColumnRowFromIndex` of part_000: `column = index % colCount`,
`row = ~~(index / colCount)`; for the `Nat` indices used by the engine the
JS truncation `~~` is ordinary natural division. -/
def getColumnRowFromIndex (index : Nat) : Int × Int :=
  (((index % colCount : Nat) : Int), ((index / colCount : Nat) : Int))

/-- The template literal id `` `${column}_${row}` `` of part_000. -/
def getPuzzleCellIdFromCooordinate (column row : Int) : String :=
  toString column ++ "_" ++ toString row

/-- Binary digits of `m`, most significant first, on the model of JS
`m.toString(2).split('').map(Number)`; the structural fuel 64 dominates the
bit length of every JS safe integer (and of both magic constants). -/
def toBinaryDigitsAux : Nat → Nat → List Nat
  | 0, _ => []
  | fuel + 1, m => if m < 2 then [m % 2] else toBinaryDigitsAux fuel (m / 2) ++ [m % 2]

/-- `decodeMagicValueToTable` of part_000. -/
def decodeMagicValueToTable (magicValue : Nat) : List Nat :=
  toBinaryDigitsAux 64 magicValue

/-- `magicValues` of part_000. -/
def magicValues : List (List Nat) :=
  [0x15a82b5, 0x1b06c1b].map decodeMagicValueToTable

abbrev PuzzleState := String → Bool

/-- `puzzleStateToCheckTable` of part_000: a lit cell contributes 1. -/
def puzzleStateToCheckTable (state : PuzzleState) : List Nat :=
  (List.range numCells).map (fun i =>
    let cr := getColumnRowFromIndex i
    let id := getPuzzleCellIdFromCooordinate cr.1 cr.2
    if state id then 1 else 0)

/-- `compareCheckTableAgainstMagicValueTable` of part_000; the loop reads
`check[i]` and `magicValueTable[i]` for `i < numCells`, embedded as `getD`
(all call sites supply tables of length `numCells`). -/
def compareCheckTableAgainstMagicValueTable (check magicValueTable : List Nat) : Bool :=
  let dotProduct := (List.range numCells).foldl
    (fun acc i => (acc + check.getD i 0 * magicValueTable.getD i 0) % 2) 0
  dotProduct == 0

/-- `isPuzzleSolvable` of part_000. -/
def isPuzzleSolvable (state : PuzzleState) : Bool :=
  let check := puzzleStateToCheckTable state
  compareCheckTableAgainstMagicValueTable check (magicValues.getD 0 []) &&
    compareCheckTableAgainstMagicValueTable check (magicValues.getD 1 [])

/-- `getAffectedCoordinates` of part_000: the clicked coordinate followed by
the five uniform offsets. -/
def getAffectedCoordinates (column row : Int) : List (Int × Int) :=
  [(column, row), (0, 0), (0, -1), (0, 1), (-1, 0), (1, 0)]

/-- `isOutOfBounds` of part_000 (despite the name it returns `true` exactly
when the offset cell is inside the grid; it is used as the keep-predicate
of a filter). -/
def isOutOfBounds (column row : Int) (d : Int × Int) : Bool :=
  !(decide (column + d.1 < 0) || decide (column + d.1 ≥ (colCount : Int)) ||
    decide (row + d.2 < 0) || decide (row + d.2 ≥ (rowCount : Int)))

/-- `applyAffectedCoordinatesToState` of part_000: `affected.shift()` takes
the clicked coordinate, the remaining offsets are bounds-filtered, and each
surviving offset toggles its cell in a copy of the state (`{...s, [id]: !lastValue}`).
(`shift` on an empty array would make the JS destructuring throw; no call
site passes an empty array, and the embedding returns the state unchanged.) -/
def applyAffectedCoordinatesToState (affected : List (Int × Int)) (state : PuzzleState) :
    PuzzleState :=
  match affected with
  | [] => state
  | (column, row) :: rest =>
    (rest.filter (isOutOfBounds column row)).foldl
      (fun s d =>
        let id := getPuzzleCellIdFromCooordinate (column + d.1) (row + d.2)
        fun k => if k = id then !(s id) else s k)
      state

/-- `flipLogic` of part_000. -/
def flipLogic (state : PuzzleState) (column row : Int) : PuzzleState :=
  applyAffectedCoordinatesToState (getAffectedCoordinates column row) state

end Part000

/-- A dispatched action object: a `type` tag plus the `column`/`row` payload
carried by the `FLIP`/`FLIP_SINGLE` actions. -/
structure PuzzleAction where
  type : String
  column : Int
  row : Int

/-- What a reducer call can produce.  The handler lookup
`puzzleReducerActionHandlers[action.type]` is an ordinary JS property read
on an object literal, so it also finds the members inherited from
`Object.prototype`; calling such a member as `handler(state, action)` can
return a plain string or throw a `TypeError` instead of producing a state. -/
inductive ReducerResult where
  | state (s : String → Bool)
  | string (str : String)
  | thrown

/-- The own property names of `Object.prototype` (ES2020): a property read
on a plain object literal falls through to these when the key is not an own
property of the literal. -/
def objectPrototypeMemberNames : List String :=
  ["constructor", "hasOwnProperty", "isPrototypeOf", "propertyIsEnumerable",
   "toLocaleString", "toString", "valueOf", "__defineGetter__",
   "__defineSetter__", "__lookupGetter__", "__lookupSetter__", "__proto__"]

namespace Part000

/-- `puzzleReducer` of part_000.  The own handlers are `RESET_PUZZLE`,
`FLIP`, `FLIP_SINGLE`.  An unrecognized `action.type` that names an
`Object.prototype` member still yields a truthy `handler`, so
`handler(state, action)` is called (ES modules are strict, so `this` is
`undefined` inside the member): `constructor` is the `Object` function and
`Object(state, action)` returns `state` itself; `toString` returns the
string `"[object Undefined]"`; every other inherited member throws a
`TypeError` — either it starts with `ToObject(this)` on an `undefined`
receiver, or, for `__proto__`, the looked-up value is `Object.prototype`,
which is not callable.  Only a `type` that is neither an own handler nor an
inherited member makes `handler` undefined (falsy) and reaches the no-op
`return state`. -/
def puzzleReducer (state : PuzzleState) (action : PuzzleAction) : ReducerResult :=
  if action.type = "RESET_PUZZLE" then .state (fun _ => false)
  else if action.type = "FLIP" then .state (flipLogic state action.column action.row)
  else if action.type = "FLIP_SINGLE" then
    .state (applyAffectedCoordinatesToState [(action.column, action.row), (0, 0)] state)
  else if action.type = "constructor" then .state state
  else if action.type = "toString" then .string "[object Undefined]"
  else if action.type ∈ objectPrototypeMemberNames then .thrown
  else .state state

end Part000

namespace Part001

def rowCount : Nat := 5
def colCount : Nat := 5
def numCells : Nat := rowCount * colCount

/-- `getColumnRowFromIndex` of part_001. -/
def getColumnRowFromIndex (index : Nat) : Int × Int :=
  (((index % colCount : Nat) : Int), ((index / colCount : Nat) : Int))

/-- The template literal id `` `${column}_${row}` `` of part_001. -/
def getPuzzleCellIdFromCooordinate (column row : Int) : String :=
  toString column ++ "_" ++ toString row

/-- `decodeMagicValueToTable` of part_001 (same decoding as part_000). -/
def decodeMagicValueToTable (magicValue : Nat) : List Nat :=
  Part000.toBinaryDigitsAux 64 magicValue

/-- `magicValues` of part_001. -/
def magicValues : List (List Nat) :=
  [0x15a82b5, 0x1b06c1b].map decodeMagicValueToTable

abbrev PuzzleState := String → Bool

/-- `puzzleStateToCheckTable` of part_001: opposite polarity to part_000 —
an UNLIT cell contributes 1 (`state[id] ? 0 : 1`). -/
def puzzleStateToCheckTable (state : PuzzleState) : List Nat :=
  (List.range numCells).map (fun i =>
    let cr := getColumnRowFromIndex i
    let id := getPuzzleCellIdFromCooordinate cr.1 cr.2
    if state id then 0 else 1)

/-- `compareCheckTableAgainstMagicValueTable` of part_001. -/
def compareCheckTableAgainstMagicValueTable (check magicValueTable : List Nat) : Bool :=
  let dotProduct := (List.range numCells).foldl
    (fun acc i => (acc + check.getD i 0 * magicValueTable.getD i 0) % 2) 0
  dotProduct == 0

/-- `isPuzzleSolvable` of part_001. -/
def isPuzzleSolvable (state : PuzzleState) : Bool :=
  let check := puzzleStateToCheckTable state
  compareCheckTableAgainstMagicValueTable check (magicValues.getD 0 []) &&
    compareCheckTableAgainstMagicValueTable check (magicValues.getD 1 [])

/-- `getAffectedCoordinates` of part_001. -/
def getAffectedCoordinates (column row : Int) : List (Int × Int) :=
  [(column, row), (0, 0), (0, -1), (0, 1), (-1, 0), (1, 0)]

/-- `isOutOfBounds` of part_001 (keep-predicate: `true` means in bounds). -/
def isOutOfBounds (column row : Int) (d : Int × Int) : Bool :=
  !(decide (column + d.1 < 0) || decide (column + d.1 ≥ (colCount : Int)) ||
    decide (row + d.2 < 0) || decide (row + d.2 ≥ (rowCount : Int)))

/-- `applyAffectedCoordinatesToState` of part_001 (identical to part_000). -/
def applyAffectedCoordinatesToState (affected : List (Int × Int)) (state : PuzzleState) :
    PuzzleState :=
  match affected with
  | [] => state
  | (column, row) :: rest =>
    (rest.filter (isOutOfBounds column row)).foldl
      (fun s d =>
        let id := getPuzzleCellIdFromCooordinate (column + d.1) (row + d.2)
        fun k => if k = id then !(s id) else s k)
      state

/-- `flipLogic` of part_001. -/
def flipLogic (state : PuzzleState) (column row : Int) : PuzzleState :=
  applyAffectedCoordinatesToState (getAffectedCoordinates column row) state

/-- `puzzleReducer` of part_001: own handlers `RESET_PUZZLE` and `FLIP`
only; the handler lookup falls through to `Object.prototype` for
unrecognized types exactly as in part_000 (see `Part000.puzzleReducer`). -/
def puzzleReducer (state : PuzzleState) (action : PuzzleAction) : ReducerResult :=
  if action.type = "RESET_PUZZLE" then .state (fun _ => false)
  else if action.type = "FLIP" then .state (flipLogic state action.column action.row)
  else if action.type = "constructor" then .state state
  else if action.type = "toString" then .string "[object Undefined]"
  else if action.type ∈ objectPrototypeMemberNames then .thrown
  else .state state

def WIDTH : ℚ := 512
def HEIGHT : ℚ := 512
def spacing : ℚ := 4
def cellWidth : ℚ := (WIDTH - spacing) / (colCount : ℚ)
def cellHeight : ℚ := (HEIGHT - spacing) / (rowCount : ℚ)

/-- One cell descriptor produced by `calculatePuzzleCellsFromState`.
The pixel geometry is embedded over `ℚ` (JS evaluates it in binary floating
point; no claim concerns the geometry fields). -/
structure PuzzleCell where
  id : String
  column : Int
  row : Int
  x : ℚ
  y : ℚ
  width : ℚ
  height : ℚ
  color : String
  lit : Bool

/-- `calculatePuzzleCellsFromState` of part_001. -/
def calculatePuzzleCellsFromState (state : PuzzleState) : List PuzzleCell :=
  (List.range numCells).map (fun i =>
    let cr := getColumnRowFromIndex i
    let id := getPuzzleCellIdFromCooordinate cr.1 cr.2
    { id := id
      column := cr.1
      row := cr.2
      x := spacing + (cr.1 : ℚ) * cellWidth
      y := spacing + (cr.2 : ℚ) * cellHeight
      width := cellWidth - spacing
      height := cellHeight - spacing
      color := if state id then "seagreen" else "black"
      lit := state id })

/-- The light count of the win-detection effect in `PuzzleView` of part_001:
`puzzle.cells.filter(cell => cell.lit).length`; the effect sets `cleared`
exactly when this equals `numCells`. -/
def numLights (state : PuzzleState) : Nat :=
  ((calculatePuzzleCellsFromState state).filter (fun cell => cell.lit)).length

end Part001

namespace AppJs

def rowCount : Nat := 4
def colCount : Nat := 4
def numCells : Nat := rowCount * colCount

/-- The template literal id `` `${column + dx}_${row + dy}` `` of App.js. -/
def mkCellId (column row : Int) : String :=
  toString column ++ "_" ++ toString row

/-- `getAffectedCoordinates` of App.js: pre-computed edge-aware offsets,
branching on first/last/middle column and row. -/
def getAffectedCoordinates (column row : Int) : List (Int × Int) :=
  [(column, row), (0, 0)] ++
    (if column = 0 then
      [((1 : Int), (0 : Int))] ++
        (if row = 0 then [((0 : Int), (1 : Int))]
         else if row = (rowCount : Int) - 1 then [((0 : Int), (-1 : Int))]
         else [((0 : Int), (-1 : Int)), ((0 : Int), (1 : Int))])
    else if column = (colCount : Int) - 1 then
      [((-1 : Int), (0 : Int))] ++
        (if row = 0 then [((0 : Int), (1 : Int))]
         else if row = (rowCount : Int) - 1 then [((0 : Int), (-1 : Int))]
         else [((0 : Int), (-1 : Int)), ((0 : Int), (1 : Int))])
    else
      [((-1 : Int), (0 : Int))] ++
        (if row = 0 then [((1 : Int), (0 : Int)), ((0 : Int), (1 : Int))]
         else if row = (rowCount : Int) - 1 then [((1 : Int), (0 : Int)), ((0 : Int), (-1 : Int))]
         else [((1 : Int), (0 : Int)), ((0 : Int), (1 : Int)), ((0 : Int), (-1 : Int))]))

abbrev PuzzleState := String → Bool

/-- `applyAffectedCoordinatesToState` of App.js: like the 5×5 variants but
with no bounds filter (the offsets are pre-computed to be in bounds). -/
def applyAffectedCoordinatesToState (affected : List (Int × Int)) (state : PuzzleState) :
    PuzzleState :=
  match affected with
  | [] => state
  | (column, row) :: rest =>
    rest.foldl
      (fun s d =>
        let id := mkCellId (column + d.1) (row + d.2)
        fun k => if k = id then !(s id) else s k)
      state

/-- `flipLogic` of App.js. -/
def flipLogic (state : PuzzleState) (column row : Int) : PuzzleState :=
  applyAffectedCoordinatesToState (getAffectedCoordinates column row) state

/-- `puzzleReducer` of App.js: own handlers `RESET_PUZZLE` and `FLIP` only;
the handler lookup falls through to `Object.prototype` for unrecognized
types exactly as in part_000 (see `Part000.puzzleReducer`). -/
def puzzleReducer (state : PuzzleState) (action : PuzzleAction) : ReducerResult :=
  if action.type = "RESET_PUZZLE" then .state (fun _ => false)
  else if action.type = "FLIP" then .state (flipLogic state action.column action.row)
  else if action.type = "constructor" then .state state
  else if action.type = "toString" then .string "[object Undefined]"
  else if action.type ∈ objectPrototypeMemberNames then .thrown
  else .state state

end AppJs

namespace Uniform

/-- Modelled from the spec: the "uniform-offset + bounds filter" neighbor
policy of §4.2(a) — "always consider all four orthogonal neighbors, discard
out-of-bounds ones at apply time" — with the grid dimensions `colCount`,
`rowCount` as parameters, so that it can be instantiated at 4×4.  The body
is the part_000/part_001 implementation of that policy with the two grid
constants abstracted. -/
def getAffectedCoordinates (column row : Int) : List (Int × Int) :=
  [(column, row), (0, 0), (0, -1), (0, 1), (-1, 0), (1, 0)]

/-- The bounds filter of the uniform policy, grid dimensions as parameters. -/
def isOutOfBounds (colCount rowCount : Nat) (column row : Int) (d : Int × Int) : Bool :=
  !(decide (column + d.1 < 0) || decide (column + d.1 ≥ (colCount : Int)) ||
    decide (row + d.2 < 0) || decide (row + d.2 ≥ (rowCount : Int)))

abbrev PuzzleState := String → Bool

/-- The apply step of the uniform policy, grid dimensions as parameters. -/
def applyAffectedCoordinatesToState (colCount rowCount : Nat)
    (affected : List (Int × Int)) (state : PuzzleState) : PuzzleState :=
  match affected with
  | [] => state
  | (column, row) :: rest =>
    (rest.filter (isOutOfBounds colCount rowCount column row)).foldl
      (fun s d =>
        let id := toString (column + d.1) ++ "_" ++ toString (row + d.2)
        fun k => if k = id then !(s id) else s k)
      state

/-- The flip transition of the uniform policy, grid dimensions as parameters. -/
def flipLogic (colCount rowCount : Nat) (state : PuzzleState) (column row : Int) :
    PuzzleState :=
  applyAffectedCoordinatesToState colCount rowCount (getAffectedCoordinates column row) state

end Uniform

/-! ### Helper layer: flips as folds of single-cell toggles -/

/-- The toggle closure shared by every `applyAffectedCoordinatesToState`:
`{...s, [id]: !Boolean(s[id])}` as a function update. -/
def toggleCell (s : String → Bool) (id : String) : String → Bool :=
  fun k => if k = id then !(s id) else s k

/-- Folding single-cell toggles over a list of ids flips a cell exactly when
the id occurs an odd number of times in the list. -/
theorem foldl_toggleCell_count (L : List String) (s : String → Bool) (k : String) :
    (L.foldl toggleCell s) k = if L.count k % 2 = 1 then !(s k) else s k := by
  induction L generalizing s with
  | nil => simp
  | cons i L ih =>
    rw [List.foldl_cons, ih]
    by_cases hk : k = i
    · subst hk
      rcases Nat.mod_two_eq_zero_or_one (L.count k) with h | h <;>
        simp [toggleCell, List.count_cons, h, Nat.add_mod]
    · simp [toggleCell, hk, List.count_cons]

namespace Part000

/-- The cell ids actually toggled by a part_000 flip at `(column, row)`:
the bounds-filtered affected offsets, translated and encoded. -/
def affectedCellIds (column row : Int) : List String :=
  ((getAffectedCoordinates column row).tail.filter (isOutOfBounds column row)).map
    (fun d => getPuzzleCellIdFromCooordinate (column + d.1) (row + d.2))

theorem flipLogic_apply_part000 (s : PuzzleState) (column row : Int) (k : String) :
    flipLogic s column row k =
      if (affectedCellIds column row).count k % 2 = 1 then !(s k) else s k := by
  have h : flipLogic s column row = (affectedCellIds column row).foldl toggleCell s := by
    unfold affectedCellIds
    rw [List.foldl_map]
    rfl
  rw [h, foldl_toggleCell_count]

end Part000

namespace Part001

/-- The cell ids actually toggled by a part_001 flip at `(column, row)`. -/
def affectedCellIds (column row : Int) : List String :=
  ((getAffectedCoordinates column row).tail.filter (isOutOfBounds column row)).map
    (fun d => getPuzzleCellIdFromCooordinate (column + d.1) (row + d.2))

theorem flipLogic_apply_part001 (s : PuzzleState) (column row : Int) (k : String) :
    flipLogic s column row k =
      if (affectedCellIds column row).count k % 2 = 1 then !(s k) else s k := by
  have h : flipLogic s column row = (affectedCellIds column row).foldl toggleCell s := by
    unfold affectedCellIds
    rw [List.foldl_map]
    rfl
  rw [h, foldl_toggleCell_count]

end Part001

namespace AppJs

/-- The cell ids toggled by an App.js flip at `(column, row)`: every offset
after the shifted head is applied, with no bounds filter. -/
def affectedCellIds (column row : Int) : List String :=
  (getAffectedCoordinates column row).tail.map
    (fun d => mkCellId (column + d.1) (row + d.2))

theorem flipLogic_apply_appJs (s : PuzzleState) (column row : Int) (k : String) :
    flipLogic s column row k =
      if (affectedCellIds column row).count k % 2 = 1 then !(s k) else s k := by
  have h : flipLogic s column row = (affectedCellIds column row).foldl toggleCell s := by
    unfold affectedCellIds
    rw [List.foldl_map]
    rfl
  rw [h, foldl_toggleCell_count]

end AppJs

namespace Uniform

/-- The cell ids toggled by the parameterized uniform-policy flip. -/
def affectedCellIds (colCount rowCount : Nat) (column row : Int) : List String :=
  ((getAffectedCoordinates column row).tail.filter
      (isOutOfBounds colCount rowCount column row)).map
    (fun d => toString (column + d.1) ++ "_" ++ toString (row + d.2))

theorem flipLogic_apply_uniform (colCount rowCount : Nat) (s : PuzzleState) (column row : Int)
    (k : String) :
    flipLogic colCount rowCount s column row k =
      if (affectedCellIds colCount rowCount column row).count k % 2 = 1 then !(s k)
      else s k := by
  have h : flipLogic colCount rowCount s column row
      = (affectedCellIds colCount rowCount column row).foldl toggleCell s := by
    unfold affectedCellIds
    rw [List.foldl_map]
    rfl
  rw [h, foldl_toggleCell_count]

end Uniform

/-! ### Claims C2, C5, C3, C8 -/

/-- Claim C2: for every puzzle state and every in-bounds `(column, row)`,
applying the flip transition twice at the same coordinates returns a state
equal to the original state, on both the 4×4 grid (App.js) and the 5×5 grid
(part_001). -/
theorem lights_c2 :
    (∀ (s : AppJs.PuzzleState) (column row : Int),
      0 ≤ column → column < 4 → 0 ≤ row → row < 4 →
        AppJs.flipLogic (AppJs.flipLogic s column row) column row = s) ∧
    (∀ (s : Part001.PuzzleState) (column row : Int),
      0 ≤ column → column < 5 → 0 ≤ row → row < 5 →
        Part001.flipLogic (Part001.flipLogic s column row) column row = s) := by
  constructor
  · intro s column row _ _ _ _
    funext k
    rw [AppJs.flipLogic_apply_appJs, AppJs.flipLogic_apply_appJs]
    by_cases h : (AppJs.affectedCellIds column row).count k % 2 = 1 <;> simp [h]
  · intro s column row _ _ _ _
    funext k
    rw [Part001.flipLogic_apply_part001, Part001.flipLogic_apply_part001]
    by_cases h : (Part001.affectedCellIds column row).count k % 2 = 1 <;> simp [h]

/-- Witness for C2 at the concrete clicks (1, 2) on the 4×4 grid and (2, 3)
on the 5×5 grid, starting from the empty state. -/
theorem lights_c2_witness :
    AppJs.flipLogic (AppJs.flipLogic (fun _ => false) 1 2) 1 2 = (fun _ => false) ∧
    Part001.flipLogic (Part001.flipLogic (fun _ => false) 2 3) 2 3 = (fun _ => false) :=
  ⟨lights_c2.1 (fun _ => false) 1 2 (by decide) (by decide) (by decide) (by decide),
   lights_c2.2 (fun _ => false) 2 3 (by decide) (by decide) (by decide) (by decide)⟩

/-- Claim C5: for every state and in-bounds click, `flipLogic` differs from
the input only at the toggled cell ids (the clicked cell and its in-grid
orthogonal neighbors): every other identifier keeps its input value.  The
input state itself cannot be modified: the embedding is purely functional,
mirroring the source's `{...s, [id]: ...}` copy-on-write update. -/
theorem lights_c5 :
    (∀ (s : Part000.PuzzleState) (column row : Int) (k : String),
      0 ≤ column → column < 5 → 0 ≤ row → row < 5 →
      k ∉ Part000.affectedCellIds column row →
        Part000.flipLogic s column row k = s k) ∧
    (∀ (s : AppJs.PuzzleState) (column row : Int) (k : String),
      0 ≤ column → column < 4 → 0 ≤ row → row < 4 →
      k ∉ AppJs.affectedCellIds column row →
        AppJs.flipLogic s column row k = s k) := by
  constructor
  · intro s column row k _ _ _ _ hk
    rw [Part000.flipLogic_apply_part000]
    simp [List.count_eq_zero_of_not_mem hk]
  · intro s column row k _ _ _ _ hk
    rw [AppJs.flipLogic_apply_appJs]
    simp [List.count_eq_zero_of_not_mem hk]

/-- Witness for C5: clicking (0, 0) never touches the far-corner cell. -/
theorem lights_c5_witness :
    "3_3" ∉ Part000.affectedCellIds 0 0 ∧
    Part000.flipLogic (fun _ => true) 0 0 "3_3" = true ∧
    "3_3" ∉ AppJs.affectedCellIds 0 0 ∧
    AppJs.flipLogic (fun _ => true) 0 0 "3_3" = true :=
  ⟨by decide,
   lights_c5.1 (fun _ => true) 0 0 "3_3" (by decide) (by decide) (by decide) (by decide)
     (by decide),
   by decide,
   lights_c5.2 (fun _ => true) 0 0 "3_3" (by decide) (by decide) (by decide) (by decide)
     (by decide)⟩

/-- Claim C3: on the 4×4 grid, for every in-bounds click the edge-aware
offset computation of App.js toggles exactly the same cells as the uniform
offsets-plus-bounds-filter policy instantiated at 4×4 — the toggled id lists
are permutations of one another, and the next state agrees for every input
state. -/
theorem lights_c3 (column row : Int) (h0 : 0 ≤ column) (h1 : column < 4)
    (h2 : 0 ≤ row) (h3 : row < 4) :
    (AppJs.affectedCellIds column row).Perm (Uniform.affectedCellIds 4 4 column row) ∧
    ∀ s : AppJs.PuzzleState,
      AppJs.flipLogic s column row = Uniform.flipLogic 4 4 s column row := by
  have hp : (AppJs.affectedCellIds column row).Perm
      (Uniform.affectedCellIds 4 4 column row) := by
    interval_cases column <;> interval_cases row <;> decide
  refine ⟨hp, fun s => ?_⟩
  funext k
  rw [AppJs.flipLogic_apply_appJs, Uniform.flipLogic_apply_uniform, hp.count_eq]

/-- Witness for C3 at the corner click (0, 0) and an edge click (2, 0). -/
theorem lights_c3_witness :
    (AppJs.affectedCellIds 0 0).Perm (Uniform.affectedCellIds 4 4 0 0) ∧
    AppJs.flipLogic (fun _ => false) 2 0 = Uniform.flipLogic 4 4 (fun _ => false) 2 0 :=
  ⟨(lights_c3 0 0 (by decide) (by decide) (by decide) (by decide)).1,
   (lights_c3 2 0 (by decide) (by decide) (by decide) (by decide)).2 (fun _ => false)⟩

/-- Claim C8 fails on the source: the dispatch-table lookup
`puzzleReducerActionHandlers[action.type]` also finds the members inherited
from `Object.prototype`, so not every unrecognized action kind is a silent
no-op.  At the unrecognized kind `toString` every reducer returns the
string `"[object Undefined]"` — not the input state — and at
`hasOwnProperty` the handler call throws a `TypeError`.  The `if (handler)`
guard and the spec's "deliberate ignore-unknown-command policy" make the
no-op the evident intent, so this is a bug in the code (the classic
object-literal-as-dispatch-table prototype leak), evaluated here at the
failing inputs. -/
theorem lights_c8 :
    Part000.puzzleReducer (fun _ => false) (PuzzleAction.mk "toString" 0 0)
        = ReducerResult.string "[object Undefined]" ∧
    Part000.puzzleReducer (fun _ => false) (PuzzleAction.mk "toString" 0 0)
        ≠ ReducerResult.state (fun _ => false) ∧
    Part000.puzzleReducer (fun _ => false) (PuzzleAction.mk "hasOwnProperty" 0 0)
        = ReducerResult.thrown ∧
    Part001.puzzleReducer (fun _ => false) (PuzzleAction.mk "toString" 0 0)
        = ReducerResult.string "[object Undefined]" ∧
    Part001.puzzleReducer (fun _ => false) (PuzzleAction.mk "hasOwnProperty" 0 0)
        = ReducerResult.thrown ∧
    AppJs.puzzleReducer (fun _ => false) (PuzzleAction.mk "toString" 0 0)
        = ReducerResult.string "[object Undefined]" ∧
    AppJs.puzzleReducer (fun _ => false) (PuzzleAction.mk "hasOwnProperty" 0 0)
        = ReducerResult.thrown := by
  refine ⟨rfl, ?_, rfl, rfl, rfl, rfl, rfl⟩
  intro h
  rw [show Part000.puzzleReducer (fun _ => false) (PuzzleAction.mk "toString" 0 0)
      = ReducerResult.string "[object Undefined]" from rfl] at h
  exact absurd h (by simp)

/-! ### Parity layer: the solvability oracle as a GF(2) dot product -/

/-- The id of the cell at linear index `i`, as enumerated by the check-table
and cell-descriptor loops. -/
def cellIdOfIndex (i : Nat) : String :=
  Part000.getPuzzleCellIdFromCooordinate (Part000.getColumnRowFromIndex i).1
    (Part000.getColumnRowFromIndex i).2

/-- The check-table entry of part_000 at index `i`, in `ZMod 2`. -/
def stateBit (s : String → Bool) (i : Nat) : ZMod 2 :=
  if s (cellIdOfIndex i) then 1 else 0

/-- The check-table entry of part_001 at index `i` (opposite polarity). -/
def stateBitNeg (s : String → Bool) (i : Nat) : ZMod 2 :=
  if s (cellIdOfIndex i) then 0 else 1

/-- Entry `i` of a magic-value table, in `ZMod 2`. -/
def tableBit (m : List Nat) (i : Nat) : ZMod 2 := (m.getD i 0 : ZMod 2)

/-- The part_000 dot product of the check vector of `s` against table `m`,
as a `ZMod 2` sum. -/
def parityZ (s : String → Bool) (m : List Nat) : ZMod 2 :=
  ∑ i ∈ Finset.range 25, stateBit s i * tableBit m i

/-- The part_001 (inverted-polarity) dot product. -/
def parityZNeg (s : String → Bool) (m : List Nat) : ZMod 2 :=
  ∑ i ∈ Finset.range 25, stateBitNeg s i * tableBit m i

def magicTable0 : List Nat := Part000.decodeMagicValueToTable 0x15a82b5
def magicTable1 : List Nat := Part000.decodeMagicValueToTable 0x1b06c1b

/-- The mod-2 accumulation loop of `compareCheckTableAgainstMagicValueTable`
computes the sum of its terms mod 2. -/
theorem foldl_mod_two (g : Nat → Nat) (n : Nat) :
    (List.range n).foldl (fun a i => (a + g i) % 2) 0
      = (∑ i ∈ Finset.range n, g i) % 2 := by
  induction n with
  | zero => simp
  | succ n ih =>
    rw [List.range_succ, List.foldl_append, ih, Finset.sum_range_succ]
    simp only [List.foldl_cons, List.foldl_nil]
    omega

theorem part000_compare_iff_zmod (check m : List Nat) :
    Part000.compareCheckTableAgainstMagicValueTable check m = true ↔
      (∑ i ∈ Finset.range 25, (check.getD i 0 : ZMod 2) * (m.getD i 0 : ZMod 2)) = 0 := by
  have h1 : Part000.compareCheckTableAgainstMagicValueTable check m = true ↔
      (∑ i ∈ Finset.range 25, check.getD i 0 * m.getD i 0) % 2 = 0 := by
    unfold Part000.compareCheckTableAgainstMagicValueTable
    rw [show Part000.numCells = 25 from rfl, foldl_mod_two, beq_iff_eq]
  have h2 := ZMod.natCast_zmod_eq_zero_iff_dvd
    (∑ i ∈ Finset.range 25, check.getD i 0 * m.getD i 0) 2
  push_cast at h2
  rw [h1, h2]
  omega

theorem part000_checkTable_getD (s : Part000.PuzzleState) (i : Nat) (h : i < 25) :
    (Part000.puzzleStateToCheckTable s).getD i 0
      = if s (cellIdOfIndex i) then 1 else 0 := by
  unfold Part000.puzzleStateToCheckTable
  rw [show Part000.numCells = 25 from rfl, List.getD_eq_getElem?_getD,
    List.getElem?_map, List.getElem?_range h]
  rfl

theorem part001_checkTable_getD (s : Part001.PuzzleState) (i : Nat) (h : i < 25) :
    (Part001.puzzleStateToCheckTable s).getD i 0
      = if s (cellIdOfIndex i) then 0 else 1 := by
  unfold Part001.puzzleStateToCheckTable
  rw [show Part001.numCells = 25 from rfl, List.getD_eq_getElem?_getD,
    List.getElem?_map, List.getElem?_range h]
  rfl

theorem part000_solvable_iff (s : Part000.PuzzleState) :
    Part000.isPuzzleSolvable s = true ↔
      parityZ s magicTable0 = 0 ∧ parityZ s magicTable1 = 0 := by
  have key : ∀ m : List Nat,
      (∑ i ∈ Finset.range 25, ((Part000.puzzleStateToCheckTable s).getD i 0 : ZMod 2) *
        (m.getD i 0 : ZMod 2)) = parityZ s m := by
    intro m
    unfold parityZ
    refine Finset.sum_congr rfl fun i hi => ?_
    rw [part000_checkTable_getD s i (Finset.mem_range.mp hi)]
    unfold stateBit tableBit
    by_cases hs : s (cellIdOfIndex i) <;> simp [hs]
  have hdef : Part000.isPuzzleSolvable s
      = (Part000.compareCheckTableAgainstMagicValueTable
          (Part000.puzzleStateToCheckTable s) (Part000.magicValues.getD 0 []) &&
        Part000.compareCheckTableAgainstMagicValueTable
          (Part000.puzzleStateToCheckTable s) (Part000.magicValues.getD 1 [])) := rfl
  rw [hdef, Bool.and_eq_true, part000_compare_iff_zmod, part000_compare_iff_zmod,
    show Part000.magicValues.getD 0 [] = magicTable0 from rfl,
    show Part000.magicValues.getD 1 [] = magicTable1 from rfl, key, key]

theorem part001_solvable_iff (s : Part001.PuzzleState) :
    Part001.isPuzzleSolvable s = true ↔
      parityZNeg s magicTable0 = 0 ∧ parityZNeg s magicTable1 = 0 := by
  have hcmp : Part001.compareCheckTableAgainstMagicValueTable
      = Part000.compareCheckTableAgainstMagicValueTable := rfl
  have key : ∀ m : List Nat,
      (∑ i ∈ Finset.range 25, ((Part001.puzzleStateToCheckTable s).getD i 0 : ZMod 2) *
        (m.getD i 0 : ZMod 2)) = parityZNeg s m := by
    intro m
    unfold parityZNeg
    refine Finset.sum_congr rfl fun i hi => ?_
    rw [part001_checkTable_getD s i (Finset.mem_range.mp hi)]
    unfold stateBitNeg tableBit
    by_cases hs : s (cellIdOfIndex i) <;> simp [hs]
  have hdef : Part001.isPuzzleSolvable s
      = (Part001.compareCheckTableAgainstMagicValueTable
          (Part001.puzzleStateToCheckTable s) (Part001.magicValues.getD 0 []) &&
        Part001.compareCheckTableAgainstMagicValueTable
          (Part001.puzzleStateToCheckTable s) (Part001.magicValues.getD 1 [])) := rfl
  rw [hdef, hcmp, Bool.and_eq_true, part000_compare_iff_zmod, part000_compare_iff_zmod,
    show Part001.magicValues.getD 0 [] = magicTable0 from rfl,
    show Part001.magicValues.getD 1 [] = magicTable1 from rfl, key, key]

/-- The indicator state of a single part_000 click: lit exactly at the cells
the click toggles (an odd number of times — the toggled ids are in fact
distinct, but only parity matters). -/
def flipPattern (column row : Int) : String → Bool :=
  fun k => decide ((Part000.affectedCellIds column row).count k % 2 = 1)

/-- A flip adds (mod 2) the parity of its click pattern to the parity of the
state, for every magic table. -/
theorem parityZ_flip (s : Part000.PuzzleState) (column row : Int) (m : List Nat) :
    parityZ (Part000.flipLogic s column row) m
      = parityZ s m + parityZ (flipPattern column row) m := by
  unfold parityZ
  rw [← Finset.sum_add_distrib]
  refine Finset.sum_congr rfl fun i _ => ?_
  rw [← add_mul]
  congr 1
  unfold stateBit flipPattern
  rw [Part000.flipLogic_apply_part000]
  by_cases hc : (Part000.affectedCellIds column row).count (cellIdOfIndex i) % 2 = 1 <;>
    by_cases hs : s (cellIdOfIndex i) <;>
      simp [hc, hs, one_add_one_eq_two, CharTwo.two_eq_zero]

/-- Every in-bounds single-click pattern of the 5×5 grid is itself solvable:
the two decoded magic tables are orthogonal to every click pattern.  This is
the finite GF(2) null-space fact behind solvability invariance. -/
theorem flipPattern_solvable (column row : Int) (h0 : 0 ≤ column) (h1 : column < 5)
    (h2 : 0 ≤ row) (h3 : row < 5) :
    Part000.isPuzzleSolvable (flipPattern column row) = true := by
  have key : ∀ a b : Fin 5,
      Part000.isPuzzleSolvable (flipPattern ((a : Nat) : Int) ((b : Nat) : Int)) = true := by
    decide
  obtain ⟨a, ha⟩ : ∃ a : Fin 5, ((a : Nat) : Int) = column :=
    ⟨⟨column.toNat, by omega⟩, by simp [Int.toNat_of_nonneg h0]⟩
  obtain ⟨b, hb⟩ : ∃ b : Fin 5, ((b : Nat) : Int) = row :=
    ⟨⟨row.toNat, by omega⟩, by simp [Int.toNat_of_nonneg h2]⟩
  rw [← ha, ← hb]
  exact key a b

/-! ### Claims C1, C9, C4, C10 -/

/-- Claim C1: on the 5×5 grid, if a state is solvable then the state after
any in-bounds flip is still solvable. -/
theorem lights_c1 (s : Part000.PuzzleState) (column row : Int)
    (h0 : 0 ≤ column) (h1 : column < 5) (h2 : 0 ≤ row) (h3 : row < 5)
    (hs : Part000.isPuzzleSolvable s = true) :
    Part000.isPuzzleSolvable (Part000.flipLogic s column row) = true := by
  rw [part000_solvable_iff] at hs ⊢
  have hp := flipPattern_solvable column row h0 h1 h2 h3
  rw [part000_solvable_iff] at hp
  exact ⟨by rw [parityZ_flip, hs.1, hp.1, add_zero],
    by rw [parityZ_flip, hs.2, hp.2, add_zero]⟩

/-- Witness for C1: the empty state is solvable and stays solvable after
clicking (2, 2). -/
theorem lights_c1_witness :
    (0 : Int) ≤ 2 ∧ (2 : Int) < 5 ∧
    Part000.isPuzzleSolvable (fun _ => false) = true ∧
    Part000.isPuzzleSolvable (Part000.flipLogic (fun _ => false) 2 2) = true :=
  ⟨by decide, by decide, by decide,
   lights_c1 (fun _ => false) 2 2 (by decide) (by decide) (by decide) (by decide)
     (by decide)⟩

/-- Claim C9: the two solvability implementations agree on every 5×5 state —
complementing the check vector leaves both dot products unchanged because
each decoded magic table has an even number of 1 entries. -/
theorem lights_c9 (s : Part000.PuzzleState) :
    Part000.isPuzzleSolvable s = Part001.isPuzzleSolvable s := by
  have hsum0 : (∑ i ∈ Finset.range 25, tableBit magicTable0 i) = 0 := by decide
  have hsum1 : (∑ i ∈ Finset.range 25, tableBit magicTable1 i) = 0 := by decide
  have hneg : ∀ m : List Nat,
      (∑ i ∈ Finset.range 25, tableBit m i) = 0 → parityZNeg s m = parityZ s m := by
    intro m hm
    have step : ∀ i : Nat, stateBitNeg s i * tableBit m i
        = stateBit s i * tableBit m i + tableBit m i := by
      intro i
      unfold stateBitNeg stateBit
      by_cases hs : s (cellIdOfIndex i) <;>
        simp [hs, CharTwo.add_self_eq_zero]
    unfold parityZNeg parityZ
    calc (∑ i ∈ Finset.range 25, stateBitNeg s i * tableBit m i)
        = ∑ i ∈ Finset.range 25, (stateBit s i * tableBit m i + tableBit m i) := by
          exact Finset.sum_congr rfl fun i _ => step i
      _ = (∑ i ∈ Finset.range 25, stateBit s i * tableBit m i)
            + ∑ i ∈ Finset.range 25, tableBit m i := Finset.sum_add_distrib
      _ = ∑ i ∈ Finset.range 25, stateBit s i * tableBit m i := by rw [hm, add_zero]
  have h0 := part000_solvable_iff s
  have h1 := part001_solvable_iff s
  rw [hneg magicTable0 hsum0, hneg magicTable1 hsum1] at h1
  cases hA : Part000.isPuzzleSolvable s <;> cases hB : Part001.isPuzzleSolvable s
  · rfl
  · have hc := h0.mpr (h1.mp hB)
    rw [hA] at hc
    exact hc
  · have hc := h1.mpr (h0.mp hA)
    rw [hB] at hc
    exact hc.symm
  · rfl

/-- Claim C4: the empty state (every cell unlit) is accepted by both
solvability implementations — the lit-counts-as-1 variant of part_000 and
the unlit-counts-as-1 variant of part_001. -/
theorem lights_c4 :
    Part000.isPuzzleSolvable (fun _ => false) = true ∧
    Part001.isPuzzleSolvable (fun _ => false) = true := by decide

/-- Claim C10: any state that maps every in-grid cell identifier of the 5×5
grid to `true` (the all-lit winning state) is accepted by both polarity
variants of the solvability oracle. -/
theorem lights_c10 (s : String → Bool)
    (h : ∀ column row : Nat, column < 5 → row < 5 →
      s (Part000.getPuzzleCellIdFromCooordinate column row) = true) :
    Part000.isPuzzleSolvable s = true ∧ Part001.isPuzzleSolvable s = true := by
  have hs : ∀ i : Nat, i < 25 →
      s (Part000.getPuzzleCellIdFromCooordinate (Part000.getColumnRowFromIndex i).1
        (Part000.getColumnRowFromIndex i).2) = true := by
    intro i hi
    exact h (i % 5) (i / 5) (by omega) (by omega)
  have hc0 : Part000.puzzleStateToCheckTable s
      = (List.range Part000.numCells).map (fun _ => 1) := by
    unfold Part000.puzzleStateToCheckTable
    refine List.map_congr_left fun i hi => ?_
    have hi' : i < 25 := by simpa [Part000.numCells, Part000.rowCount, Part000.colCount]
      using List.mem_range.mp hi
    simp [hs i hi']
  have hc1 : Part001.puzzleStateToCheckTable s
      = (List.range Part001.numCells).map (fun _ => 0) := by
    unfold Part001.puzzleStateToCheckTable
    refine List.map_congr_left fun i hi => ?_
    have hi' : i < 25 := by simpa [Part001.numCells, Part001.rowCount, Part001.colCount]
      using List.mem_range.mp hi
    have hthis := hs i hi'
    simp [Part000.getPuzzleCellIdFromCooordinate, Part000.getColumnRowFromIndex,
      Part000.colCount] at hthis
    simp [Part001.getPuzzleCellIdFromCooordinate, Part001.getColumnRowFromIndex,
      Part001.colCount, hthis]
  constructor
  · have hdef : Part000.isPuzzleSolvable s
        = (Part000.compareCheckTableAgainstMagicValueTable
            (Part000.puzzleStateToCheckTable s) (Part000.magicValues.getD 0 []) &&
          Part000.compareCheckTableAgainstMagicValueTable
            (Part000.puzzleStateToCheckTable s) (Part000.magicValues.getD 1 [])) := rfl
    rw [hdef, hc0]
    decide
  · have hdef : Part001.isPuzzleSolvable s
        = (Part001.compareCheckTableAgainstMagicValueTable
            (Part001.puzzleStateToCheckTable s) (Part001.magicValues.getD 0 []) &&
          Part001.compareCheckTableAgainstMagicValueTable
            (Part001.puzzleStateToCheckTable s) (Part001.magicValues.getD 1 [])) := rfl
    rw [hdef, hc1]
    decide

/-- Witness for C10 at the everywhere-true state. -/
theorem lights_c10_witness :
    Part000.isPuzzleSolvable (fun _ => true) = true ∧
    Part001.isPuzzleSolvable (fun _ => true) = true :=
  lights_c10 (fun _ => true) (fun _ _ _ _ => rfl)

/-! ### Claims C6 and C7 -/

/-- Claim C6: decoding each magic constant yields exactly the 25 binary
digits of the constant, most significant bit first — entry `i` is bit
`24 - i` — in both files' decoders.  (In particular the tables have length
25 and every entry is 0 or 1.) -/
theorem lights_c6 :
    Part000.decodeMagicValueToTable 0x15a82b5
        = (List.range 25).map (fun i => 0x15a82b5 / 2 ^ (24 - i) % 2) ∧
    Part000.decodeMagicValueToTable 0x1b06c1b
        = (List.range 25).map (fun i => 0x1b06c1b / 2 ^ (24 - i) % 2) ∧
    Part001.decodeMagicValueToTable 0x15a82b5
        = (List.range 25).map (fun i => 0x15a82b5 / 2 ^ (24 - i) % 2) ∧
    Part001.decodeMagicValueToTable 0x1b06c1b
        = (List.range 25).map (fun i => 0x1b06c1b / 2 ^ (24 - i) % 2) := by
  decide

/-- Claim C7: the win check of part_001 counts the lit cell descriptors, and
that count reaches `numCells` exactly when every in-grid cell identifier is
mapped to `true` by the state. -/
theorem lights_c7 (s : Part001.PuzzleState) :
    Part001.numLights s = Part001.numCells ↔
      ∀ column row : Nat, column < 5 → row < 5 →
        s (Part001.getPuzzleCellIdFromCooordinate column row) = true := by
  have hcount : Part001.numLights s = (List.range 25).countP (fun i =>
      s (Part001.getPuzzleCellIdFromCooordinate ((i % 5 : Nat) : Int)
        ((i / 5 : Nat) : Int))) := by
    unfold Part001.numLights Part001.calculatePuzzleCellsFromState
    rw [← List.countP_eq_length_filter, List.countP_map]
    rfl
  have key : ∀ p : Nat → Bool,
      ((List.range 25).countP p = 25 ↔ ∀ i, i < 25 → p i = true) := by
    intro p
    nth_rewrite 2 [show (25 : Nat) = (List.range 25).length from
      (List.length_range 25).symm]
    rw [List.countP_eq_length]
    constructor
    · intro h i hi
      exact h i (List.mem_range.mpr hi)
    · intro h i hi
      exact h i (List.mem_range.mp hi)
  rw [hcount, show Part001.numCells = 25 from rfl, key]
  constructor
  · intro h column row hc hr
    have hx := h (row * 5 + column) (by omega)
    rw [show (row * 5 + column) % 5 = column from by omega,
      show (row * 5 + column) / 5 = row from by omega] at hx
    exact hx
  · intro h i hi
    exact h (i % 5) (i / 5) (by omega) (by omega)

/-- Witness for C7 at the everywhere-true state: all 25 descriptors are lit. -/
theorem lights_c7_witness :
    Part001.numLights (fun _ => true) = Part001.numCells :=
  (lights_c7 (fun _ => true)).mpr (fun _ _ _ _ => rfl)

/-- Witness for C9 at the empty state. -/
theorem lights_c9_witness :
    Part000.isPuzzleSolvable (fun _ => false) = Part001.isPuzzleSolvable (fun _ => false) :=
  lights_c9 (fun _ => false)
